import Mathlib

/-!
Shallow embedding of the metadata-extraction core of the `imsize` package
(src/imsize/imsize.py) together with theorems checking the repository's
specification against it.

Modelling conventions:
* Python `None`-able attributes of `ImageInfo` become `Option` fields.
* Python exceptions become explicit error values (`PyError`); an operation
  that can raise returns `Except PyError _` (or `Option _` for the internal
  normalization step, where `none` models the `TypeError` raised when an
  arithmetic operand is still `None`).
* Python's truthiness-based `x or d` idiom on integers is `pyOrNat`/`pyOrInt`
  (`None` and `0` are falsy).
* Python unbounded integers become `Nat`/`Int`; the rational `maxval`
  (which can be the float `1.0` for floating-point formats) becomes `ℚ`.
* `int(math.log2(m + 1))` for `m ≥ 0` is the floor of the base-2 logarithm;
  it is modelled exactly by `log2floor ⌊m + 1⌋` (the float rounding of
  `math.log2` is idealized away).
* The floating-point arithmetic of the generic RAW guesser
  (`math.sqrt`, float `%` and `/`) is idealized over `ℝ` further below.
-/

namespace ImsizeModel

/-- Python exception kinds that the modelled code paths can raise. -/
inductive PyError where
  /-- `RuntimeError`, the typed format failure raised by the parsers. -/
  | runtimeError : PyError
  /-- `TypeError` from arithmetic on a `None` operand (e.g. `2 ** None`). -/
  | typeError : PyError
  /-- `UnboundLocalError` from reading a local variable never assigned. -/
  | unboundLocalError : PyError
  /-- `KeyError` from a failed `dict[...]` lookup. -/
  | keyError : PyError
  /-- `struct.error` from unpacking a too-short buffer. -/
  | structError : PyError
  /-- `AssertionError` from a failed `assert` statement. -/
  | assertionError : PyError
  /-- `ZeroDivisionError` from dividing by (float) zero. -/
  | zeroDivisionError : PyError
  /-- `FileNotFoundError` from opening or stat-ing a missing file. -/
  | fileNotFoundError : PyError
deriving DecidableEq

/-- The `ImageInfo` object as parsers fill it, before `_complete`:
every attribute starts as `None` (imsize.py lines 67-87). -/
structure PreInfo where
  filespec : String := ""
  filetype : String := ""
  filesize : Option ℕ := none
  multi_picture : Option Bool := none
  num_images : Option ℕ := none
  image_sizes : Option (List ℕ) := none
  image_offsets : Option (List ℕ) := none
  header_size : Option ℤ := none
  isfloat : Option Bool := none
  cfa_raw : Option Bool := none
  width : Option ℕ := none
  height : Option ℕ := none
  nchan : Option ℕ := none
  bitdepth : Option ℕ := none
  bytedepth : Option ℕ := none
  maxval : Option ℚ := none
  orientation : Option ℕ := none
  rot90_ccw_steps : Option ℕ := none
  uncertain : Option Bool := none
deriving DecidableEq

/-- The `ImageInfo` object after `_complete` has run successfully. -/
structure CompleteInfo where
  filespec : String
  filetype : String
  filesize : ℕ
  maxval : ℚ
  bitdepth : ℕ
  bytedepth : ℕ
  width : ℕ
  height : ℕ
  nchan : ℕ
  nbytes : ℕ
  uncertain : Bool
  orientation : ℕ
  rot90_ccw_steps : ℕ
  header_size : ℤ
  multi_picture : Bool
  num_images : Option ℕ
  image_sizes : Option (List ℕ)
  image_offsets : Option (List ℕ)
  isfloat : Option Bool
  cfa_raw : Option Bool
deriving DecidableEq

/-- Python `x or d` for an optional natural number: `None` and `0` are falsy. -/
def pyOrNat (x : Option ℕ) (d : ℕ) : ℕ :=
  match x with
  | none => d
  | some n => if n = 0 then d else n

/-- Python `x or d` for an optional integer: `None` and `0` are falsy. -/
def pyOrInt (x : Option ℤ) (d : ℤ) : ℤ :=
  match x with
  | none => d
  | some n => if n = 0 then d else n

/-- Fuel-driven floor of the base-2 logarithm (0 for inputs below 2),
written structurally so that the kernel can evaluate it. -/
def log2floorAux : ℕ → ℕ → ℕ
  | 0, _ => 0
  | fuel + 1, n => if n ≤ 1 then 0 else log2floorAux fuel (n / 2) + 1

/-- `⌊log₂ n⌋` for `n ≥ 1` (and `0` for `n = 0`). -/
def log2floor (n : ℕ) : ℕ := log2floorAux n n

/-- Line 487 of imsize.py: `info.maxval = info.maxval or 2 ** info.bitdepth - 1`.
`none` models the `TypeError` raised by `2 ** None` when both attributes
are unset. -/
def pyMaxval (maxval : Option ℚ) (bitdepth : Option ℕ) : Option ℚ :=
  match maxval with
  | some v => if v = 0 then bitdepth.map (fun b => (2 : ℚ) ^ b - 1) else some v
  | none => bitdepth.map (fun b => (2 : ℚ) ^ b - 1)

/-- Line 488 of imsize.py:
`info.bitdepth = info.bitdepth or int(math.log2(info.maxval + 1))`,
evaluated after `maxval` has been filled in. -/
def pyBitdepth (bitdepth : Option ℕ) (maxval : ℚ) : ℕ :=
  match bitdepth with
  | some b => if b = 0 then log2floor (⌊maxval + 1⌋).toNat else b
  | none => log2floor (⌊maxval + 1⌋).toNat

/-- The record built at the end of `_complete` (imsize.py lines 490-500),
given the already-derived scalar fields. -/
def mkComplete (info : PreInfo) (filesize : ℕ) (maxval : ℚ)
    (bitdepth bytedepth width height nchan : ℕ) : CompleteInfo :=
  { filespec := info.filespec
    filetype := info.filetype
    filesize := filesize
    maxval := maxval
    bitdepth := bitdepth
    bytedepth := bytedepth
    width := width
    height := height
    nchan := nchan
    nbytes := width * height * nchan * bytedepth
    uncertain := info.uncertain.getD false
    orientation := pyOrNat info.orientation 0
    rot90_ccw_steps := pyOrNat info.rot90_ccw_steps 0
    header_size := pyOrInt info.header_size 0
    multi_picture := info.multi_picture.getD false
    num_images := if info.multi_picture.getD false then info.num_images else some 1
    image_sizes := if info.multi_picture.getD false then info.image_sizes else some [filesize]
    image_offsets := if info.multi_picture.getD false then info.image_offsets else some [0]
    isfloat := info.isfloat
    cfa_raw := info.cfa_raw }

/-- `_complete` (imsize.py lines 485-500). `getsize` is the on-disk file
size consulted when `info.filesize` is unset; `none` models the `TypeError`
raised when a needed attribute is still `None`. -/
def complete (getsize : ℕ) (info : PreInfo) : Option CompleteInfo :=
  let filesize := pyOrNat info.filesize getsize
  (pyMaxval info.maxval info.bitdepth).bind fun maxval =>
  let bitdepth := pyBitdepth info.bitdepth maxval
  let bytedepth := pyOrNat info.bytedepth (if 255 < maxval then 2 else 1)
  info.width.bind fun width =>
  info.height.bind fun height =>
  info.nchan.bind fun nchan =>
  some (mkComplete info filesize maxval bitdepth bytedepth width height nchan)

/-- Big-endian 32-bit unsigned integer from the first four bytes
(`struct.unpack(">L", ...)`). -/
def beU32 (l : List ℕ) : ℕ :=
  l.getD 0 0 * 16777216 + l.getD 1 0 * 65536 + l.getD 2 0 * 256 + l.getD 3 0

/-- Little-endian 32-bit unsigned integer (`struct.unpack("<L", ...)`). -/
def leU32 (l : List ℕ) : ℕ :=
  l.getD 0 0 + l.getD 1 0 * 256 + l.getD 2 0 * 65536 + l.getD 3 0 * 16777216

/-- Little-endian 16-bit unsigned integer (`struct.unpack("<H", ...)`). -/
def leU16 (l : List ℕ) : ℕ :=
  l.getD 0 0 + l.getD 1 0 * 256

/-- The 8-byte PNG signature (imsize.py line 163). -/
def pngSignatureBytes : List ℕ := [0x89, 0x50, 0x4e, 0x47, 0x0d, 0x0a, 0x1a, 0x0a]

/-- The ASCII bytes of `b"IHDR"`. -/
def ihdrBytes : List ℕ := [0x49, 0x48, 0x44, 0x52]

/-- PNG color-type to channel-count dictionary (imsize.py lines 169-173);
`none` models the `KeyError` raised for any other color type. -/
def pngNchan : ℕ → Option ℕ
  | 0 => some 1
  | 2 => some 3
  | 3 => some 3
  | 4 => some 2
  | 6 => some 4
  | _ => none

/-- `_read_png` (imsize.py lines 155-176) over the file's bytes.
When the signature or the IHDR tag does not match, the `if` body that
assigns the local `ihdr` is skipped, so line 166 (`info.width = ihdr[0]`)
raises `UnboundLocalError`; the `raise RuntimeError` on line 176 sits after
a `with` block whose body always returns or raises, hence is unreachable. -/
def read_png (filespec : String) (data : List ℕ) (getsize : ℕ) :
    Except PyError CompleteInfo :=
  let header := data.take 26
  if header.take 8 = pngSignatureBytes ∧ (header.drop 12).take 4 = ihdrBytes then
    if header.length < 26 then .error .structError
    else
      match pngNchan (header.getD 25 0) with
      | none => .error .keyError
      | some nchan =>
        match complete getsize
            { filespec := filespec, filetype := "png",
              isfloat := some false, cfa_raw := some false,
              width := some (beU32 ((header.drop 16).take 4)),
              height := some (beU32 ((header.drop 20).take 4)),
              bitdepth := some (header.getD 24 0),
              nchan := some nchan } with
        | some out => .ok out
        | none => .error .typeError
  else .error .unboundLocalError

/-- BMP bits-per-pixel to channel-count dictionary (imsize.py lines 248-254);
`none` models the `KeyError` raised for any other bpp value. -/
def bmpNchan : ℕ → Option ℕ
  | 1 => some 1
  | 2 => some 3
  | 4 => some 3
  | 8 => some 3
  | 16 => some 4
  | 24 => some 3
  | 32 => some 4
  | _ => none

/-- `_read_bmp` (imsize.py lines 235-258) over the file's bytes.
When the first two bytes are not `b"BM"`, the `if` body is skipped and
`_complete` runs on a record whose `maxval` and `bitdepth` are both `None`,
so `2 ** info.bitdepth` raises `TypeError`; the `raise RuntimeError` on
line 258 sits after a `with` block whose body always returns or raises,
hence is unreachable. -/
def read_bmp (filespec : String) (data : List ℕ) (getsize : ℕ) :
    Except PyError CompleteInfo :=
  let base : PreInfo :=
    { filespec := filespec, filetype := "bmp",
      isfloat := some false, cfa_raw := some false }
  let bmp_header := data.take 14
  if bmp_header.take 2 = [0x42, 0x4d] then
    let dib := (data.drop 14).take 16
    if dib.length < 16 then .error .structError
    else
      match bmpNchan (leU16 ((dib.drop 12).take 2)) with
      | none => .error .keyError
      | some nchan =>
        match complete getsize
            { base with
              width := some (leU32 ((dib.drop 4).take 4)),
              height := some (leU32 ((dib.drop 8).take 4)),
              nchan := some nchan,
              maxval := some 255 } with
        | some out => .ok out
        | none => .error .typeError
  else
    match complete getsize base with
    | some out => .ok out
    | none => .error .typeError

/-- `os.path.basename` for POSIX paths: the characters after the last `/`. -/
def afterLastSlash (cs : List Char) : List Char :=
  cs.foldl (fun acc c => if c = '/' then [] else acc ++ [c]) []

/-- Index of the last `.` in the name, when any. -/
def lastDotIdx (cs : List Char) : Option ℕ :=
  ((cs.enum.filter (fun p => p.2 = '.')).getLast?).map (fun p => p.1)

/-- The extension part of `os.path.splitext` (dot included): the suffix from
the last dot, provided some non-dot character precedes that dot (names
consisting only of leading dots, such as `.bashrc`, have no extension). -/
def splitextExt (cs : List Char) : List Char :=
  match lastDotIdx cs with
  | none => []
  | some i => if (cs.take i).any (fun c => c ≠ '.') then cs.drop i else []

/-- Lines 112-114 of imsize.py: basename, extension, `lower()[1:]`. -/
def filetypeOf (filespec : String) : String :=
  let base := afterLastSlash filespec.data
  let ext := splitextExt base
  String.mk ((ext.map Char.toLower).drop 1)

/-- The format parsers `read` can dispatch to (imsize.py lines 115-132). -/
inductive Handler where
  | png | pnm | pfm | bmp | jpeg | insp | tiff | exr | hdr | dng | cr2 | nef | raw | npy
deriving DecidableEq

/-- The extension-to-parser dispatch table (imsize.py lines 115-132). -/
def handlers : List (String × Handler) :=
  [("png", .png), ("pnm", .pnm), ("pgm", .pnm), ("ppm", .pnm), ("pfm", .pfm),
   ("bmp", .bmp), ("jpeg", .jpeg), ("jpg", .jpeg), ("insp", .insp),
   ("tiff", .tiff), ("tif", .tiff), ("exr", .exr), ("hdr", .hdr),
   ("dng", .dng), ("cr2", .cr2), ("nef", .nef), ("raw", .raw), ("npy", .npy)]

/-- The minimal record `read` builds for an unrecognized extension
(imsize.py lines 139-145); all attributes not listed stay `None`, in
particular `width` and `height`. -/
structure MinimalInfo where
  filespec : String
  filetype : String
  filesize : ℕ
  nbytes : ℕ
  uncertain : Bool
  width : Option ℕ := none
  height : Option ℕ := none
deriving DecidableEq

instance : DecidableEq (Except PyError CompleteInfo) := fun a b =>
  match a, b with
  | .ok x, .ok y => decidable_of_iff (x = y) (by simp)
  | .ok _, .error _ => isFalse (fun hc => by cases hc)
  | .error _, .ok _ => isFalse (fun hc => by cases hc)
  | .error x, .error y => decidable_of_iff (x = y) (by simp)

/-- Outcome of `read`: the PNG and BMP parsers are embedded in full; the
remaining handlers are abstracted as the chosen parser applied to the
file's bytes (their result is a function of those two alone). -/
inductive ReadResult where
  | pngResult : Except PyError CompleteInfo → ReadResult
  | bmpResult : Except PyError CompleteInfo → ReadResult
  | dispatched : Handler → Option (List ℕ) → ReadResult
  | minimal : Option MinimalInfo → ReadResult
deriving DecidableEq

/-- `read` (imsize.py lines 98-145) over a filesystem `fs` mapping each path
to the bytes of the file stored there (`none` when no such file exists, in
which case opening or stat-ing it raises `FileNotFoundError`). -/
def read_model (fs : String → Option (List ℕ)) (p : String) : ReadResult :=
  let filetype := filetypeOf p
  match handlers.lookup filetype with
  | some Handler.png =>
    .pngResult (match fs p with
      | none => .error .fileNotFoundError
      | some data => read_png p data data.length)
  | some Handler.bmp =>
    .bmpResult (match fs p with
      | none => .error .fileNotFoundError
      | some data => read_bmp p data data.length)
  | some h => .dispatched h (fs p)
  | none =>
    .minimal (match fs p with
      | none => none
      | some data => some { filespec := p, filetype := filetype,
                            filesize := data.length, nbytes := data.length,
                            uncertain := true })

/-- The EXIF-orientation to rotation-steps dictionary
`{1: 0, 2: 0, 3: 2, 4: 0, 5: 1, 6: 3, 7: 3, 8: 1}` (imsize.py lines 339
and 362); `none` models a key missing from the dictionary. -/
def exifToRot90 (t : ℕ) : Option ℕ :=
  if t = 1 then some 0 else if t = 2 then some 0 else if t = 3 then some 2
  else if t = 4 then some 0 else if t = 5 then some 1 else if t = 6 then some 3
  else if t = 7 then some 3 else if t = 8 then some 1 else none

/-- `_read_exif_orientation` (imsize.py lines 334-342): the
`(orientation, rot90_ccw_steps)` attributes it sets, as a function of the
EXIF Orientation tag the EXIF library returns (`none` when absent).
`rot90_ccw_steps` is assigned only when the tag is a key of the table. -/
def read_exif_orientation (tag : Option ℕ) : Option ℕ × Option ℕ :=
  (tag, tag.bind exifToRot90)

/-- Lines 361-364 of `_read_exif` (the TIFF/DNG path):
`orientation = int(exif.get(...) or 0)` followed by a lookup of that value
in the same table (an absent tag thus becomes 0 before the lookup). -/
def read_exif_orientation2 (tag : Option ℕ) : ℕ × Option ℕ :=
  let o := tag.getD 0
  (o, exifToRot90 o)

/-- Modelled from the spec: the fixed orientation-to-rotation table
`{1:0, 2:0, 3:2, 4:0, 5:1, 6:3, 7:3, 8:1}` named by the claim, as a total
function (for comparison against the code's dictionary). -/
def specRot90Table (t : ℕ) : ℕ :=
  if t = 1 then 0 else if t = 2 then 0 else if t = 3 then 2
  else if t = 4 then 0 else if t = 5 then 1 else if t = 6 then 3
  else if t = 7 then 3 else if t = 8 then 1 else 0

/-- `_read_npy` (imsize.py lines 459-482) as a function of the parsed NPY
header metadata: the array `shape`, the dtype's element size in bytes, and
whether the dtype is floating point. Shapes of rank other than 2 or 3 skip
the `if` body, so the `raise RuntimeError` on line 482 (which sits after
the `with` block) is reached. -/
def read_npy (filespec : String) (shape : List ℕ) (itemsize : ℕ)
    (isfloat : Bool) (getsize : ℕ) : Except PyError CompleteInfo :=
  let build : ℕ → ℕ → ℕ → Except PyError CompleteInfo := fun height width nchan =>
    match complete getsize
        { filespec := filespec, filetype := "npy", cfa_raw := some false,
          height := some height, width := some width, nchan := some nchan,
          isfloat := some isfloat, bytedepth := some itemsize,
          bitdepth := some (itemsize * 8),
          maxval := some (if isfloat then 1 else 2 ^ (itemsize * 8) - 1) } with
    | some out => .ok out
    | none => .error .typeError
  match shape with
  | [h, w] => build h w 1
  | [h, w, c] => build h w c
  | _ => .error .runtimeError

/-- The scalar fields of a JPEG APP2 MPF block, in the order `_read_jpeg`
unpacks them (imsize.py lines 296-301), plus the `(size, offset)` pair of
each MP entry subsequently unpacked (lines 313-316). -/
structure MpfFields where
  offset : ℕ
  count : ℕ
  version_tag : ℕ
  version : List ℕ
  nimages_tag : ℕ
  nimages : ℕ
  mpentry_tag : ℕ
  entries : List (ℕ × ℕ)
deriving DecidableEq

/-- The multi-picture attributes `_read_jpeg` sets from a valid MPF block. -/
structure MpfResult where
  multi_picture : Bool
  num_images : ℕ
  image_sizes : List ℕ
  image_offsets : List ℕ
deriving DecidableEq

/-- The MPF validation and extraction of `_read_jpeg` (imsize.py lines
302-316), entered once the `b"MPF\x00"` signature has matched: the
defensive `assert` statements in source order, then the multi-picture
attributes. `prev_pos` is the file position right after the segment
header; each image offset is stored as `offset + prev_pos + 4`. Reading
`nimages` MP entries fails with `struct.error` when the stream holds
fewer. -/
def parse_mpf (prev_pos : ℕ) (f : MpfFields) : Except PyError MpfResult :=
  if f.offset ≠ 8 then .error .assertionError
  else if f.count ≠ 3 then .error .assertionError
  else if f.version_tag ≠ 45056 then .error .assertionError
  else if f.version ≠ [0x30, 0x31, 0x30, 0x30] then .error .assertionError
  else if f.nimages_tag ≠ 45057 then .error .assertionError
  else if f.nimages ≠ 2 then .error .assertionError
  else if f.mpentry_tag ≠ 45058 then .error .assertionError
  else if f.entries.length < f.nimages then .error .structError
  else .ok { multi_picture := true, num_images := f.nimages,
             image_sizes := (f.entries.take f.nimages).map Prod.fst,
             image_offsets := (f.entries.take f.nimages).map (fun e => e.2 + prev_pos + 4) }

/-- Python's float `%` for the positive divisor 4 used by `_read_raw`:
`a % b = a - b * ⌊a / b⌋`. The float arithmetic is idealized over `ℝ`. -/
noncomputable def pymod (a b : ℝ) : ℝ := a - b * ⌊a / b⌋

/-- Python's `int()` on a float: truncation toward zero. -/
noncomputable def pytrunc (x : ℝ) : ℤ := if 0 ≤ x then ⌊x⌋ else ⌈x⌉

/-- Outcome of one iteration of the aspect-ratio loop of `_read_raw`. -/
inductive AspectTry where
  | err : AspectTry
  | accept : ℤ → ℤ → ℤ → AspectTry
  | reject : AspectTry

/-- The dimension fields `_read_raw` guesses: `width`/`height` (unset when
every candidate aspect ratio fails), the computed `header_size`, and the
always-true `uncertain` flag. -/
structure RawGuess where
  width : Option ℤ
  height : Option ℤ
  header_size : ℤ
  uncertain : Bool
deriving DecidableEq

/-- Line 433 of imsize.py: `numpixels = info.filesize / info.bytedepth`
with `bytedepth = 2`. -/
noncomputable def rawNumpixels (filesize : ℕ) : ℝ := (filesize : ℝ) / 2

/-- Line 434 of imsize.py: `info.height = math.sqrt(numpixels * aspect)`. -/
noncomputable def rawHeight (filesize : ℕ) (aspect : ℝ) : ℝ :=
  Real.sqrt (rawNumpixels filesize * aspect)

/-- Line 435 of imsize.py: `info.width = numpixels / info.height`. -/
noncomputable def rawWidth (filesize : ℕ) (aspect : ℝ) : ℝ :=
  rawNumpixels filesize / rawHeight filesize aspect

/-- One iteration of the loop in `_read_raw` (imsize.py lines 432-448):
when the computed height is zero the division on line 435 raises
`ZeroDivisionError`; an exact pair of `% 4` remainders accepts with the
initial `header_size = 0`; remainders both below 0.5 accept with truncated
dimensions and the residual bytes as `header_size`; otherwise the
candidate aspect ratio is rejected. -/
noncomputable def tryAspect (filesize : ℕ) (aspect : ℝ) : AspectTry :=
  let height := rawHeight filesize aspect
  if height = 0 then .err
  else
    let width := rawWidth filesize aspect
    let wrem4 := pymod width 4
    let hrem4 := pymod height 4
    if wrem4 = 0 ∧ hrem4 = 0 then .accept (pytrunc width) (pytrunc height) 0
    else if wrem4 < 0.5 ∧ hrem4 < 0.5 then
      .accept (pytrunc width) (pytrunc height)
        ((filesize : ℤ) - pytrunc width * pytrunc height * 2)
    else .reject

/-- The dimension-guessing part of `_read_raw` (imsize.py lines 421-449):
the aspect ratios 3/4, 2/3, 9/16 are tried in order, the first acceptance
wins, and when all three fail `width`/`height` stay unset and the record
(with `uncertain = true` and `header_size = 0`) is returned without
passing through `_complete`. The bit-depth inference on lines 450-454
reads the pixel payload and is outside this definition. -/
noncomputable def read_raw_guess (filesize : ℕ) : Except PyError RawGuess :=
  match tryAspect filesize (3/4) with
  | .err => .error .zeroDivisionError
  | .accept w h hs => .ok ⟨some w, some h, hs, true⟩
  | .reject =>
    match tryAspect filesize (2/3) with
    | .err => .error .zeroDivisionError
    | .accept w h hs => .ok ⟨some w, some h, hs, true⟩
    | .reject =>
      match tryAspect filesize (9/16) with
      | .err => .error .zeroDivisionError
      | .accept w h hs => .ok ⟨some w, some h, hs, true⟩
      | .reject => .ok ⟨none, none, 0, true⟩

/-- A sample pre-record (a 2x3 greyscale 8-bit image) for exercising
`complete` on concrete input. -/
def preSample : PreInfo :=
  { filespec := "a", filetype := "t", width := some 2, height := some 3,
    nchan := some 1, bitdepth := some 8 }

/-- The record `complete 100 preSample` evaluates to. -/
def outSample : CompleteInfo :=
  { filespec := "a", filetype := "t", filesize := 100, maxval := 255,
    bitdepth := 8, bytedepth := 1, width := 2, height := 3, nchan := 1,
    nbytes := 6, uncertain := false, orientation := 0, rot90_ccw_steps := 0,
    header_size := 0, multi_picture := false, num_images := some 1,
    image_sizes := some [100], image_offsets := some [0],
    isfloat := none, cfa_raw := none }

/-- A one-file filesystem holding an unrecognized-extension file. -/
def fsSampleA : String → Option (List ℕ) :=
  fun q => if q = "dir/photo.XYZ" then some [7, 7, 7, 7, 7] else none

/-- A one-file filesystem holding a small `.dat` file. -/
def fsSampleB1 : String → Option (List ℕ) :=
  fun q => if q = "a.dat" then some [1, 2, 3] else none

/-- A filesystem holding the same `.dat` file but differing elsewhere. -/
def fsSampleB2 : String → Option (List ℕ) :=
  fun q => if q = "a.dat" then some [1, 2, 3] else some [9]

/-- A pre-record as `_read_jpeg` builds it for a 4x2 RGB 8-bit frame whose
EXIF Orientation tag is `tag`. -/
def preOrient (tag : Option ℕ) : PreInfo :=
  { filespec := "o.jpg", filetype := "jpeg",
    isfloat := some false, cfa_raw := some false,
    width := some 4, height := some 2, nchan := some 3, bitdepth := some 8,
    orientation := (read_exif_orientation tag).1,
    rot90_ccw_steps := (read_exif_orientation tag).2 }

/-- The record `complete 64 (preOrient (some 6))` evaluates to. -/
def outOrient6 : CompleteInfo :=
  { filespec := "o.jpg", filetype := "jpeg", filesize := 64, maxval := 255,
    bitdepth := 8, bytedepth := 1, width := 4, height := 2, nchan := 3,
    nbytes := 24, uncertain := false, orientation := 6, rot90_ccw_steps := 3,
    header_size := 0, multi_picture := false, num_images := some 1,
    image_sizes := some [64], image_offsets := some [0],
    isfloat := some false, cfa_raw := some false }

/-- An MPF block that is well formed except that it announces 3 images. -/
def mpfSample3 : MpfFields :=
  { offset := 8, count := 3, version_tag := 45056,
    version := [0x30, 0x31, 0x30, 0x30], nimages_tag := 45057,
    nimages := 3, mpentry_tag := 45058,
    entries := [(10, 100), (20, 200), (30, 300)] }

/-- C1: every record that passes through the normalization step `_complete`
satisfies `nbytes = width * height * nchan * bytedepth` (imsize.py line 490). -/
theorem complete_nbytes_eq (getsize : ℕ) (pre : PreInfo) (out : CompleteInfo)
    (h : complete getsize pre = some out) :
    out.nbytes = out.width * out.height * out.nchan * out.bytedepth := by
  simp only [complete, Option.bind_eq_some] at h
  obtain ⟨mv, hmv, h⟩ := h
  obtain ⟨w, hw, h⟩ := h
  obtain ⟨ht, hh, h⟩ := h
  obtain ⟨nc, hnc, h⟩ := h
  cases h
  rfl

/-- Witness for C1: `complete` evaluated on a concrete record. -/
theorem complete_nbytes_eq_witness :
    complete 100 preSample = some outSample ∧
      outSample.nbytes = outSample.width * outSample.height * outSample.nchan * outSample.bytedepth := by
  have h : complete 100 preSample = some outSample := by
    simp only [complete, preSample, outSample, pyMaxval, pyBitdepth, pyOrNat, pyOrInt,
      mkComplete, Option.bind_eq_bind, Option.some_bind, Option.map_some, Option.getD_none]
    norm_num
  exact ⟨h, complete_nbytes_eq 100 preSample outSample h⟩

/-- C4: on a `.png` file whose bytes do not start with the PNG signature,
`_read_png` raises `UnboundLocalError` (the local `ihdr` is only assigned
inside the signature check, and the `raise RuntimeError` on imsize.py
line 176 is unreachable), not the typed format failure the spec requires. -/
theorem read_png_bad_signature_unbound_local :
    read_png "bad.png" [0x4a, 0x55, 0x4e, 0x4b] 4 = .error .unboundLocalError := by
  decide

/-- C2: on a `.bmp` file whose first two bytes are not `b"BM"`, `_read_bmp`
falls through to `_complete` with `maxval` and `bitdepth` still `None` and
crashes with `TypeError` (`2 ** None`); the typed `raise RuntimeError` on
imsize.py line 258 is unreachable. -/
theorem read_bmp_bad_magic_type_error :
    read_bmp "bad.bmp" [0x4a, 0x55, 0x4e, 0x4b] 4 = .error .typeError := by
  decide

/-- C5: for every existing file whose extension is not in the dispatch
table, `read` returns without error a minimal record with `filespec`
copied, `filetype` the lowercased extension, `filesize` the on-disk size,
`nbytes = filesize`, `uncertain = true`, and `width`/`height` absent
(imsize.py lines 133-145). -/
theorem read_unknown_extension_minimal (fs : String → Option (List ℕ))
    (p : String) (data : List ℕ)
    (hext : handlers.lookup (filetypeOf p) = none) (hfs : fs p = some data) :
    read_model fs p = .minimal (some
      { filespec := p, filetype := filetypeOf p,
        filesize := data.length, nbytes := data.length,
        uncertain := true, width := none, height := none }) := by
  simp [read_model, hext, hfs]

/-- Witness for C5: a concrete `.XYZ` file yields the minimal
lowercased-filetype record. -/
theorem read_unknown_extension_minimal_witness :
    filetypeOf "dir/photo.XYZ" = "xyz" ∧
    read_model fsSampleA "dir/photo.XYZ" = .minimal (some
      { filespec := "dir/photo.XYZ", filetype := "xyz",
        filesize := 5, nbytes := 5, uncertain := true,
        width := none, height := none }) := by
  have hft : filetypeOf "dir/photo.XYZ" = "xyz" := by decide
  have h := read_unknown_extension_minimal fsSampleA "dir/photo.XYZ" [7, 7, 7, 7, 7]
    (by rw [hft]; decide) (by decide)
  exact ⟨hft, by simpa [hft] using h⟩

/-- C8: `read` is deterministic: its result depends only on the bytes
stored at the requested path, so two reads of an unmodified file agree
(the embedding abstracts the EXIF/RAW libraries as functions of those
bytes). -/
theorem read_model_deterministic (fs1 fs2 : String → Option (List ℕ))
    (p : String) (h : fs1 p = fs2 p) : read_model fs1 p = read_model fs2 p := by
  unfold read_model
  rw [h]

/-- Witness for C8: two filesystems agreeing on `a.dat` give equal reads. -/
theorem read_model_deterministic_witness :
    read_model fsSampleB1 "a.dat" = read_model fsSampleB2 "a.dat" :=
  read_model_deterministic fsSampleB1 fsSampleB2 "a.dat" (by decide)

/-- Counterexample for C6: a present but unrecognized orientation tag (9)
is kept verbatim in the returned record's `orientation` field (only
`rot90_ccw_steps` defaults to 0), contradicting the claim that both fields
are 0 for an unrecognized tag. -/
theorem orientation_unrecognized_kept :
    exifToRot90 9 = none ∧
    (complete 64 (preOrient (some 9))).map
        (fun o => (o.orientation, o.rot90_ccw_steps)) = some (9, 0) := by
  constructor
  · decide
  · simp only [complete, preOrient, read_exif_orientation, exifToRot90, pyMaxval,
      pyBitdepth, pyOrNat, pyOrInt, mkComplete, Option.bind_eq_bind, Option.some_bind,
      Option.bind_some, Option.map_some, Option.getD_none]
    norm_num

/-- C6 (amended): for an orientation tag in 1..8 the returned record carries
the tag and the fixed table's rotation; for an absent tag both fields are 0;
for a present tag outside 1..8 `rot90_ccw_steps` is 0 but `orientation`
keeps the raw tag value. The TIFF/DNG variant (`_read_exif`, lines 361-364)
agrees with the JPEG variant after the completion defaults. -/
theorem orientation_table_amended (getsize : ℕ) (pre : PreInfo)
    (out : CompleteInfo) (tag : Option ℕ)
    (h1 : pre.orientation = (read_exif_orientation tag).1)
    (h2 : pre.rot90_ccw_steps = (read_exif_orientation tag).2)
    (hc : complete getsize pre = some out) :
    (∀ t, tag = some t → 1 ≤ t → t ≤ 8 →
        out.orientation = t ∧ out.rot90_ccw_steps = specRot90Table t) ∧
    (tag = none → out.orientation = 0 ∧ out.rot90_ccw_steps = 0) ∧
    (∀ t, tag = some t → (t = 0 ∨ 9 ≤ t) →
        out.orientation = t ∧ out.rot90_ccw_steps = 0) ∧
    (∀ u : Option ℕ,
        (pyOrNat (some (read_exif_orientation2 u).1) 0,
          pyOrNat (read_exif_orientation2 u).2 0)
          = (pyOrNat (read_exif_orientation u).1 0,
              pyOrNat (read_exif_orientation u).2 0)) := by
  simp only [complete, Option.bind_eq_some] at hc
  obtain ⟨mv, hmv, hc⟩ := hc
  obtain ⟨w, hw, hc⟩ := hc
  obtain ⟨ht, hh, hc⟩ := hc
  obtain ⟨nc, hnc, hc⟩ := hc
  cases hc
  refine ⟨?_, ?_, ?_, ?_⟩
  · intro t htag hge hle
    subst htag
    simp only [mkComplete, read_exif_orientation] at h1 h2 ⊢
    rw [h1, h2]
    interval_cases t <;> simp [exifToRot90, specRot90Table, pyOrNat]
  · intro htag
    subst htag
    simp only [mkComplete, read_exif_orientation] at h1 h2 ⊢
    rw [h1, h2]
    simp [pyOrNat]
  · intro t htag hbad
    subst htag
    simp only [mkComplete, read_exif_orientation] at h1 h2 ⊢
    rw [h1, h2]
    rcases hbad with h0 | h9
    · subst h0
      simp [pyOrNat, exifToRot90]
    · constructor
      · simp only [pyOrNat]
        rw [if_neg (by omega)]
      · simp only [Option.some_bind, exifToRot90]
        repeat rw [if_neg (by omega)]
        rfl
  · intro u
    cases u with
    | none => decide
    | some t => rfl

/-- Witness for C6: tag 6 gives orientation 6, rotation 3 after completion. -/
theorem orientation_table_amended_witness :
    complete 64 (preOrient (some 6)) = some outOrient6 ∧
    outOrient6.orientation = 6 ∧ outOrient6.rot90_ccw_steps = 3 := by
  have hcomp : complete 64 (preOrient (some 6)) = some outOrient6 := by
    simp only [complete, preOrient, outOrient6, read_exif_orientation, exifToRot90,
      pyMaxval, pyBitdepth, pyOrNat, pyOrInt, mkComplete, Option.bind_eq_bind,
      Option.some_bind, Option.bind_some, Option.map_some, Option.getD_none]
    norm_num
  have h := (orientation_table_amended 64 (preOrient (some 6)) outOrient6 (some 6)
    rfl rfl hcomp).1 6 rfl (by norm_num) (by norm_num)
  refine ⟨hcomp, h.1, ?_⟩
  rw [h.2]
  decide

/-- C7: the NPY parser accepts exactly the shapes of rank 2 or 3 (any other
rank reaches the typed `RuntimeError` on imsize.py line 482), and a
(10, 20, 5) array with a 2-byte dtype yields width 20, height 10, nchan 5,
bitdepth 16 and `nbytes = 20*10*5*2`. -/
theorem read_npy_rank_and_shape (filespec : String) (shape : List ℕ)
    (itemsize getsize : ℕ) (isfloat : Bool) :
    ((read_npy filespec shape itemsize isfloat getsize).isOk = true ↔
        shape.length = 2 ∨ shape.length = 3) ∧
    (read_npy filespec [10, 20, 5] 2 false getsize).toOption.map
        (fun o => (o.width, o.height, o.nchan, o.bitdepth, o.nbytes))
      = some (20, 10, 5, 16, 2000) := by
  constructor
  · rcases shape with _ | ⟨a, _ | ⟨b, _ | ⟨c, _ | ⟨d, rest⟩⟩⟩⟩
    · simp [read_npy, Except.isOk, Except.toBool]
    · simp [read_npy, Except.isOk, Except.toBool]
    · simp only [read_npy, List.length_cons, List.length_nil]
      rcases hc : complete getsize
          { filespec := filespec, filetype := "npy", cfa_raw := some false,
            height := some a, width := some b, nchan := some 1,
            isfloat := some isfloat, bytedepth := some itemsize,
            bitdepth := some (itemsize * 8),
            maxval := some (if isfloat then 1 else 2 ^ (itemsize * 8) - 1) } with
        _ | out
      · exfalso
        revert hc
        simp only [complete, pyMaxval]
        split <;> simp
      · simp [Except.isOk, Except.toBool]
    · simp only [read_npy, List.length_cons, List.length_nil]
      rcases hc : complete getsize
          { filespec := filespec, filetype := "npy", cfa_raw := some false,
            height := some a, width := some b, nchan := some c,
            isfloat := some isfloat, bytedepth := some itemsize,
            bitdepth := some (itemsize * 8),
            maxval := some (if isfloat then 1 else 2 ^ (itemsize * 8) - 1) } with
        _ | out
      · exfalso
        revert hc
        simp only [complete, pyMaxval]
        split <;> simp
      · simp [Except.isOk, Except.toBool]
    · simp [read_npy, Except.isOk, Except.toBool]
  · simp only [read_npy, complete, pyMaxval, pyBitdepth, pyOrNat, pyOrInt, mkComplete,
      Option.bind_eq_bind, Option.some_bind, Option.bind_some, Option.map_some,
      Option.getD_none]
    norm_num
    exact ⟨_, rfl, rfl, rfl, rfl, rfl, rfl⟩

/-- C9: the MPF block parser returns a record with `multi_picture = true`
only when the announced image count is exactly 2; any other count fails one
of the defensive assertions and no record is produced. -/
theorem mpf_requires_two_images (prev_pos : ℕ) (f : MpfFields) :
    (∀ r, parse_mpf prev_pos f = .ok r → r.multi_picture = true ∧ f.nimages = 2) ∧
    (f.nimages ≠ 2 → (parse_mpf prev_pos f).isOk = false) := by
  constructor
  · intro r hr
    unfold parse_mpf at hr
    split_ifs at hr with h1 h2 h3 h4 h5 h6 h7 h8
    cases hr
    exact ⟨rfl, by omega⟩
  · intro hne
    unfold parse_mpf
    split_ifs <;> rfl

/-- Witness for C9: an otherwise valid MPF block announcing 3 images is
rejected. -/
theorem mpf_requires_two_images_witness : (parse_mpf 0 mpfSample3).isOk = false :=
  (mpf_requires_two_images 0 mpfSample3).2 (by decide)

/-- C10: a zero-byte `.raw` file makes `_read_raw` compute `height = 0`
for the first candidate aspect ratio, and `width = numpixels / height`
raises `ZeroDivisionError` instead of returning a best-effort record. -/
theorem read_raw_zero_byte_zero_division :
    read_raw_guess 0 = .error .zeroDivisionError := by
  have h : rawHeight 0 (3/4) = 0 := by
    rw [rawHeight, show rawNumpixels 0 * (3/4) = 0 by rw [rawNumpixels]; norm_num,
      Real.sqrt_zero]
  have hta : tryAspect 0 (3/4) = .err := by
    simp only [tryAspect]
    rw [if_pos h]
  unfold read_raw_guess
  rw [hta]

lemma raw24_np : rawNumpixels 24 = 12 := by
  rw [rawNumpixels]; norm_num

lemma raw24_h1 : rawHeight 24 (3/4) = 3 := by
  rw [rawHeight, raw24_np, show (12 : ℝ) * (3/4) = 3 ^ 2 by norm_num,
    Real.sqrt_sq (by norm_num)]

lemma raw24_w1 : rawWidth 24 (3/4) = 4 := by
  rw [rawWidth, raw24_np, raw24_h1]; norm_num

lemma pymod_four_four : pymod 4 4 = 0 := by
  rw [pymod, show (4 : ℝ) / 4 = 1 by norm_num, Int.floor_one]; norm_num

lemma pymod_three_four : pymod 3 4 = 3 := by
  rw [pymod, show ⌊(3 : ℝ) / 4⌋ = 0 from Int.floor_eq_iff.mpr (by norm_num)]
  norm_num

lemma tryAspect_24_1 : tryAspect 24 (3/4) = .reject := by
  simp only [tryAspect]
  rw [raw24_h1, raw24_w1, pymod_four_four, pymod_three_four]
  rw [if_neg (by norm_num : ¬(3 : ℝ) = 0)]
  rw [if_neg (by norm_num : ¬((0 : ℝ) = 0 ∧ (3 : ℝ) = 0))]
  rw [if_neg (by norm_num : ¬((0 : ℝ) < 0.5 ∧ (3 : ℝ) < 0.5))]

lemma raw24_h2 : rawHeight 24 (2/3) = Real.sqrt 8 := by
  rw [rawHeight, raw24_np, show (12 : ℝ) * (2/3) = 8 by norm_num]

lemma raw24_w2 : rawWidth 24 (2/3) = 12 / Real.sqrt 8 := by
  rw [rawWidth, raw24_np, raw24_h2]

lemma sqrt8_pos : 0 < Real.sqrt 8 := Real.sqrt_pos.mpr (by norm_num)

lemma sqrt8_lb : 2.8 < Real.sqrt 8 :=
  (Real.lt_sqrt (by norm_num)).mpr (by norm_num)

lemma sqrt8_ub : Real.sqrt 8 < 3 :=
  (Real.sqrt_lt' (by norm_num)).mpr (by norm_num)

lemma w2_floor : ⌊(12 / Real.sqrt 8) / 4⌋ = 1 := by
  have h1 : 4 < 12 / Real.sqrt 8 := by
    rw [lt_div_iff₀ sqrt8_pos]
    nlinarith [sqrt8_ub]
  have h2 : 12 / Real.sqrt 8 < 8 := by
    rw [div_lt_iff₀ sqrt8_pos]
    nlinarith [sqrt8_lb]
  rw [Int.floor_eq_iff]
  constructor
  · push_cast; linarith
  · push_cast; linarith

lemma h2_floor : ⌊Real.sqrt 8 / 4⌋ = 0 := by
  rw [Int.floor_eq_iff]
  constructor
  · push_cast; positivity
  · push_cast
    nlinarith [sqrt8_ub]

lemma tryAspect_24_2 : tryAspect 24 (2/3) = .reject := by
  simp only [tryAspect]
  rw [raw24_h2, raw24_w2]
  rw [show pymod (12 / Real.sqrt 8) 4 = 12 / Real.sqrt 8 - 4 by
    rw [pymod, w2_floor]; norm_num]
  rw [show pymod (Real.sqrt 8) 4 = Real.sqrt 8 by
    rw [pymod, h2_floor]; norm_num]
  rw [if_neg (ne_of_gt sqrt8_pos)]
  rw [if_neg (show ¬(12 / Real.sqrt 8 - 4 = 0 ∧ Real.sqrt 8 = 0) by
    rintro ⟨-, h2⟩
    exact (ne_of_gt sqrt8_pos) h2)]
  rw [if_neg (show ¬(12 / Real.sqrt 8 - 4 < 0.5 ∧ Real.sqrt 8 < 0.5) by
    rintro ⟨-, h2⟩
    nlinarith [sqrt8_lb])]

lemma raw24_h3 : rawHeight 24 (9/16) = Real.sqrt 6.75 := by
  rw [rawHeight, raw24_np, show (12 : ℝ) * (9/16) = 6.75 by norm_num]

lemma raw24_w3 : rawWidth 24 (9/16) = 12 / Real.sqrt 6.75 := by
  rw [rawWidth, raw24_np, raw24_h3]

lemma sqrt675_pos : 0 < Real.sqrt 6.75 := Real.sqrt_pos.mpr (by norm_num)

lemma sqrt675_lb : 2.5 < Real.sqrt 6.75 :=
  (Real.lt_sqrt (by norm_num)).mpr (by norm_num)

lemma sqrt675_ub : Real.sqrt 6.75 < 2.6 :=
  (Real.sqrt_lt' (by norm_num)).mpr (by norm_num)

lemma w3_floor : ⌊(12 / Real.sqrt 6.75) / 4⌋ = 1 := by
  have h1 : 4 < 12 / Real.sqrt 6.75 := by
    rw [lt_div_iff₀ sqrt675_pos]
    nlinarith [sqrt675_ub]
  have h2 : 12 / Real.sqrt 6.75 < 8 := by
    rw [div_lt_iff₀ sqrt675_pos]
    nlinarith [sqrt675_lb]
  rw [Int.floor_eq_iff]
  constructor
  · push_cast; linarith
  · push_cast; linarith

lemma w3_ge : (4.5 : ℝ) ≤ 12 / Real.sqrt 6.75 := by
  rw [le_div_iff₀ sqrt675_pos]
  nlinarith [sqrt675_ub]

lemma tryAspect_24_3 : tryAspect 24 (9/16) = .reject := by
  simp only [tryAspect]
  rw [raw24_h3, raw24_w3]
  rw [show pymod (12 / Real.sqrt 6.75) 4 = 12 / Real.sqrt 6.75 - 4 by
    rw [pymod, w3_floor]; norm_num]
  rw [if_neg (ne_of_gt sqrt675_pos)]
  rw [if_neg (show ¬(12 / Real.sqrt 6.75 - 4 = 0 ∧ pymod (Real.sqrt 6.75) 4 = 0) by
    rintro ⟨h1, -⟩
    nlinarith [w3_ge])]
  rw [if_neg (show ¬(12 / Real.sqrt 6.75 - 4 < 0.5 ∧ pymod (Real.sqrt 6.75) 4 < 0.5) by
    rintro ⟨h1, -⟩
    nlinarith [w3_ge])]

/-- Counterexample for C3: a 24-byte file gives exactly integral dimensions
`width = 4`, `height = 3` at the first aspect ratio 3/4, yet the guesser
rejects all three candidates and leaves `width`/`height` unset, because the
code tests `width % 4` and `height % 4` (imsize.py lines 436-437), not
integrality: `3 % 4 = 3` fails both acceptance tests. -/
theorem raw_guess_integral_rejected :
    rawWidth 24 (3/4) = 4 ∧ rawHeight 24 (3/4) = 3 ∧
    read_raw_guess 24 = .ok ⟨none, none, 0, true⟩ := by
  refine ⟨raw24_w1, raw24_h1, ?_⟩
  unfold read_raw_guess
  rw [tryAspect_24_1, tryAspect_24_2, tryAspect_24_3]

lemma pymod_four_mul_natCast (k : ℕ) : pymod ((4 * k : ℕ) : ℝ) 4 = 0 := by
  rw [pymod, show (((4 * k : ℕ) : ℝ)) / 4 = (k : ℝ) by push_cast; ring,
    Int.floor_natCast]
  push_cast; ring

lemma pytrunc_natCast (m : ℕ) : pytrunc ((m : ℕ) : ℝ) = (m : ℤ) := by
  rw [pytrunc, if_pos (by positivity)]
  exact Int.floor_natCast m

/-- C3 (amended): the guesser tries aspect ratios 3/4, 2/3, 9/16 in order
with `numpixels = filesize / 2`, `height = sqrt(numpixels * aspect)`,
`width = numpixels / height`; it accepts with `header_size = 0` when width
and height are exact multiples of 4 (the code tests `% 4`, not
integrality). In particular, when the first aspect ratio yields
`width = 4*kw` and `height = 4*kh` exactly, those dimensions are returned
with `header_size = 0` and `uncertain = true`. -/
theorem raw_guess_accepts_multiples_of_four (n kw kh : ℕ) (hkh : 0 < kh)
    (hw : rawWidth n (3/4) = ((4 * kw : ℕ) : ℝ))
    (hh : rawHeight n (3/4) = ((4 * kh : ℕ) : ℝ)) :
    read_raw_guess n = .ok ⟨some ((4 * kw : ℕ) : ℤ), some ((4 * kh : ℕ) : ℤ), 0, true⟩ := by
  have hta : tryAspect n (3/4) = .accept ((4 * kw : ℕ) : ℤ) ((4 * kh : ℕ) : ℤ) 0 := by
    simp only [tryAspect]
    rw [hw, hh]
    rw [if_neg (show ¬((4 * kh : ℕ) : ℝ) = 0 from Nat.cast_ne_zero.mpr (by omega))]
    rw [if_pos ⟨pymod_four_mul_natCast kw, pymod_four_mul_natCast kh⟩]
    rw [pytrunc_natCast, pytrunc_natCast]
  unfold read_raw_guess
  rw [hta]

/-- Witness for C3: a file of exactly `1280*960*2` bytes is accepted at the
first aspect ratio with `width = 1280`, `height = 960`, `header_size = 0`,
`uncertain = true`. -/
theorem raw_guess_accepts_multiples_of_four_witness :
    rawWidth 2457600 (3/4) = 1280 ∧ rawHeight 2457600 (3/4) = 960 ∧
    read_raw_guess 2457600 = .ok ⟨some 1280, some 960, 0, true⟩ := by
  have hnp : rawNumpixels 2457600 = 1228800 := by
    rw [rawNumpixels]; norm_num
  have hh : rawHeight 2457600 (3/4) = 960 := by
    rw [rawHeight, hnp, show (1228800 : ℝ) * (3/4) = 960 ^ 2 by norm_num,
      Real.sqrt_sq (by norm_num)]
  have hw : rawWidth 2457600 (3/4) = 1280 := by
    rw [rawWidth, hnp, hh]; norm_num
  have hh' : rawHeight 2457600 (3/4) = ((4 * 240 : ℕ) : ℝ) := by
    rw [hh]; norm_num
  have hw' : rawWidth 2457600 (3/4) = ((4 * 320 : ℕ) : ℝ) := by
    rw [hw]; norm_num
  refine ⟨hw, hh, ?_⟩
  have h := raw_guess_accepts_multiples_of_four 2457600 320 240 (by norm_num) hw' hh'
  rw [h]
  norm_num

end ImsizeModel
